import Mathlib

/-!
Shallow embedding of `veml6070/veml6070.py` (MicroPython driver for the
Vishay VEML6070 UV sensor) and verification of its specification.

Modelling conventions:
- Machine bytes and 16-bit values are `Nat` with the source's shifts and ors.
- The I2C bus is modelled as a perfect transport; every bus transaction the
  driver attempts is recorded as an `Event` in order of issue.  The two data
  bytes a `read` transaction delivers are passed in as parameters
  (`lsbByte` from the data-LSB address, `msbByte` from the data-MSB address).
- Python floats appear only as sleep durations and the sensitivity scale;
  every such value here (0.1125 * m, 0.05625 / m) is modelled as an exact
  rational, which is enough because no claim depends on float rounding.
- Python exceptions (NameError, KeyError, ValueError, ZeroDivisionError) are
  modelled by `Except PyError`; each operation returns the post-state and the
  list of bus events issued before the exception, so that partial mutation
  (for example `set_integration_time` updating `integration_time` before the
  unbound-name crash) is visible.
- Dict iteration in `uv_risk` is modelled in insertion order; the five risk
  ranges are pairwise disjoint, so iteration order cannot change the result.
-/

namespace Veml6070

/-- Python errors the source can raise. -/
inductive PyError where
  /-- NameError: the given name is not bound in any enclosing scope. -/
  | nameError (n : String)
  /-- KeyError from a dict subscript. -/
  | keyError (k : String)
  /-- The ValueError raised by `uv_risk` when the integration-time multiplier
      is 0 (message: only available for Integration Times 1, 2 and 4). -/
  | valueError
  /-- ZeroDivisionError from `0.05625 / 0`. -/
  | zeroDivisionError
  deriving DecidableEq, Repr

/-- One bus or timing action issued by the driver, in order of issue. -/
inductive Event where
  /-- `i2c.writeto(addr, data)` : plain write of `data` to 7-bit `addr`. -/
  | write (addr : Nat) (data : List Nat)
  /-- `i2c.writeto_mem(addr, memaddr, data)` : write `data` to register
      `memaddr` of device `addr`. -/
  | writeMem (addr : Nat) (memaddr : Nat) (data : List Nat)
  /-- `i2c.readfrom_into(addr, buf, n)` : read `n` bytes from `addr`. -/
  | read (addr : Nat) (nbytes : Nat)
  /-- `utime.sleep(d)`. -/
  | sleep (d : ℚ)
  deriving DecidableEq, Repr

/-- `VEML6070_ADDR_ARA = const(0x18 >> 1)` : alert-response address 0x0C. -/
def VEML6070_ADDR_ARA : Nat := 0x18 >>> 1

/-- `VEML6070_ADDR_CMD = const(0x70 >> 1)` : command address 0x38. -/
def VEML6070_ADDR_CMD : Nat := 0x70 >>> 1

/-- `VEML6070_ADDR_LOW = const(0x71 >> 1)` : data-LSB address 0x38. -/
def VEML6070_ADDR_LOW : Nat := 0x71 >>> 1

/-- `VEML6070_ADDR_HIGH = const(0x73 >> 1)` : data-MSB address 0x39. -/
def VEML6070_ADDR_HIGH : Nat := 0x73 >>> 1

/-- `VEML6070_INTEGRATION_TIME` : key, then [command code, multiplier]. -/
def VEML6070_INTEGRATION_TIME : List (String × Nat × Nat) :=
  [("VEML6070_HALF_T", 0x00, 0),
   ("VEML6070_1_T", 0x01, 1),
   ("VEML6070_2_T", 0x02, 2),
   ("VEML6070_4_T", 0x03, 4)]

/-- Dict lookup `VEML6070_INTEGRATION_TIME[it]` as an `Option`. -/
def itLookup (it : String) : Option (Nat × Nat) :=
  (VEML6070_INTEGRATION_TIME.find? (fun p => p.1 = it)).map (fun p => p.2)

/-- The mutable attributes of a `VEML6070` instance.  `buf` is `self.buf[0]`,
the single scratch byte written to the command register. -/
structure VEML6070 where
  ack : Bool
  ack_thd : Nat
  integration_time : String
  rset : String
  buf : Nat
  deriving DecidableEq, Repr

/-- `__init__(self, i2c, ack=False)` : sets the attributes, issues
`i2c.writeto_mem(VEML6070_ADDR_LOW, VEML6070_ADDR_ARA, self.ara_buf)` (with
`ara_buf = bytearray(1)`, a single zero byte), then computes
`self.buf[0] = ack << 5 | VEML6070_INTEGRATION_TIME['VEML6070_1_T'][0] << 2`
and issues `i2c.writeto(VEML6070_ADDR_CMD, self.buf)`.  Returns the
constructed state and the bus events in order of issue. -/
def initDriver (ack : Bool) : VEML6070 × List Event :=
  let buf0 : Nat := ack.toNat <<< 5 ||| 0x01 <<< 2
  ({ ack := ack, ack_thd := 0x00, integration_time := "VEML6070_1_T",
     rset := "RSET_270K", buf := buf0 },
   [Event.writeMem VEML6070_ADDR_LOW VEML6070_ADDR_ARA [0x00],
    Event.write VEML6070_ADDR_CMD [buf0]])

/-- `set_integration_time(self, it)`.  If `it` is not a key of
`VEML6070_INTEGRATION_TIME` it returns `False` with no state change and no
bus traffic.  Otherwise the source first assigns `self.integration_time = it`
and then evaluates `self.buf[0] = ack << 5 | ...`: the name `ack` is not
bound in the method (the attribute is `self.ack`), so this raises `NameError`
before `self.buf` is written and before any bus write is issued. -/
def set_integration_time (s : VEML6070) (it : String) :
    Except PyError Bool × VEML6070 × List Event :=
  if (itLookup it).isSome then
    (Except.error (PyError.nameError "ack"),
     { s with integration_time := it }, [])
  else
    (Except.ok false, s, [])

/-- The local dict `case_refresh_rset` of `get_refresh_time`, with the float
values as exact rationals: 0.1 = 1/10, 0.1125 = 9/80, 0.125 = 1/8, 0.25 = 1/4. -/
def case_refresh_rset : List (String × ℚ) :=
  [("RSET_240K", 1/10), ("RSET_270K", 9/80), ("RSET_300K", 1/8),
   ("RSET_600K", 1/4)]

/-- Dict lookup `case_refresh_rset[rs]` as an `Option`. -/
def refreshLookup (rs : String) : Option ℚ :=
  (case_refresh_rset.find? (fun p => p.1 = rs)).map (fun p => p.2)

/-- `get_refresh_time(self)` : returns
`case_refresh_rset[self.rset] * VEML6070_INTEGRATION_TIME[self.integration_time][1]`.
The rset subscript is evaluated first, so a missing rset key raises its
KeyError before a missing integration-time key would. -/
def get_refresh_time (s : VEML6070) : Except PyError ℚ × VEML6070 × List Event :=
  match refreshLookup s.rset with
  | none => (Except.error (PyError.keyError s.rset), s, [])
  | some base =>
    match itLookup s.integration_time with
    | none => (Except.error (PyError.keyError s.integration_time), s, [])
    | some cm => (Except.ok (base * (cm.2 : ℚ)), s, [])

/-- `wake(self)` : computes
`self.buf[0] = self.ack << 5 | self.ack_thd << 4 | code << 2 | 0x02`
where `code = VEML6070_INTEGRATION_TIME[self.integration_time][0]`, and
issues `i2c.writeto(VEML6070_ADDR_CMD, self.buf)`. -/
def wake (s : VEML6070) : Except PyError Unit × VEML6070 × List Event :=
  match itLookup s.integration_time with
  | none => (Except.error (PyError.keyError s.integration_time), s, [])
  | some cm =>
    let b : Nat := s.ack.toNat <<< 5 ||| s.ack_thd <<< 4 ||| cm.1 <<< 2 ||| 0x02
    (Except.ok (), { s with buf := b }, [Event.write VEML6070_ADDR_CMD [b]])

/-- `shutdown(self)` : sets `self.buf[0] = 0x03` verbatim and issues
`i2c.writeto(VEML6070_ADDR_CMD, self.buf)` inside a try/except, returning
`True` on success and `False` on bus failure.  The transport is modelled as
perfect, so the result is `True`; the attempted write is recorded either way. -/
def shutdown (s : VEML6070) : Bool × VEML6070 × List Event :=
  (true, { s with buf := 0x03 }, [Event.write VEML6070_ADDR_CMD [0x03]])

/-- `read(self)` : wake, sleep for `get_refresh_time()`, read one byte from
`VEML6070_ADDR_LOW` into `lsb` and one byte from `VEML6070_ADDR_HIGH` into
`msb`, then `read_buf = msb + lsb` and
`raw = read_buf[1] << 8 | read_buf[0]`, i.e. `raw = lsb << 8 | msb`
(note: the byte from the data-LSB address lands in the high position), then
shutdown, then return `raw`.  `lsbByte` and `msbByte` are the bytes the bus
delivers for the two reads. -/
def read (s : VEML6070) (lsbByte msbByte : Nat) :
    Except PyError Nat × VEML6070 × List Event :=
  match wake s with
  | (Except.error e, s1, ev1) => (Except.error e, s1, ev1)
  | (Except.ok _, s1, ev1) =>
    match get_refresh_time s1 with
    | (Except.error e, s2, ev2) => (Except.error e, s2, ev1 ++ ev2)
    | (Except.ok t, s2, ev2) =>
      let read_buf : List Nat := [msbByte] ++ [lsbByte]
      let raw : Nat := read_buf.getD 1 0 <<< 8 ||| read_buf.getD 0 0
      match shutdown s2 with
      | (_, s3, ev3) =>
        (Except.ok raw, s3,
         ev1 ++ ev2 ++
           [Event.sleep t, Event.read VEML6070_ADDR_LOW 1,
            Event.read VEML6070_ADDR_HIGH 1] ++ ev3)

/-- `uva_light_sensitivity(self)` : `raw = self.read()`, then
`raw * (0.05625 / VEML6070_INTEGRATION_TIME[self.integration_time][1])`.
The division is evaluated first, so multiplier 0 raises ZeroDivisionError;
0.05625 is the exact rational 9/160. -/
def uva_light_sensitivity (s : VEML6070) (lsbByte msbByte : Nat) :
    Except PyError ℚ × VEML6070 × List Event :=
  match read s lsbByte msbByte with
  | (Except.error e, s1, ev) => (Except.error e, s1, ev)
  | (Except.ok raw, s1, ev) =>
    match itLookup s1.integration_time with
    | none => (Except.error (PyError.keyError s1.integration_time), s1, ev)
    | some cm =>
      if cm.2 = 0 then (Except.error PyError.zeroDivisionError, s1, ev)
      else (Except.ok ((raw : ℚ) * ((9/160 : ℚ) / (cm.2 : ℚ))), s1, ev)

/-- The local dict `VEML6070_RISK_LEVEL` of `uv_risk` : rset key, then
for each level name the `[lower, upper]` pair fed to `range(lower, upper)`. -/
def VEML6070_RISK_LEVEL : List (String × List (String × Nat × Nat)) :=
  [("RSET_270K",
    [("LOW", 0, 560), ("MODERATE", 561, 1120), ("HIGH", 1121, 1494),
     ("VERY HIGH", 1495, 2054), ("EXTREME", 2055, 9999)])]

/-- The risk-scan loop of `uv_risk` : the first level (in insertion order)
whose `range(lower, upper)` contains `raw_adj`, i.e. `lower ≤ raw_adj < upper`
(Python `range` excludes its upper bound). -/
def riskScan (table : List (String × Nat × Nat)) (raw_adj : Nat) : Option String :=
  (table.find? (fun p => decide (p.2.1 ≤ raw_adj) && decide (raw_adj < p.2.2))).map
    (fun p => p.1)

/-- `uv_risk(self)` : `raw = self.read()`; look up the multiplier
`div = VEML6070_INTEGRATION_TIME[self.integration_time][1]`; raise ValueError
if `div == 0`; `raw_adj = int(raw / div)` (exact Nat division here: every
divisor in the table is a power of two and raw is far below 2^53, so float
truncation agrees with integer division); then scan
`VEML6070_RISK_LEVEL[self.rset]`.  If no range contains `raw_adj` the loop
falls through without ever assigning `risk`, and `return risk` raises
NameError. -/
def uv_risk (s : VEML6070) (lsbByte msbByte : Nat) :
    Except PyError String × VEML6070 × List Event :=
  match read s lsbByte msbByte with
  | (Except.error e, s1, ev) => (Except.error e, s1, ev)
  | (Except.ok raw, s1, ev) =>
    match itLookup s1.integration_time with
    | none => (Except.error (PyError.keyError s1.integration_time), s1, ev)
    | some cm =>
      if cm.2 = 0 then (Except.error PyError.valueError, s1, ev)
      else
        match (VEML6070_RISK_LEVEL.find? (fun p => p.1 = s1.rset)).map (fun p => p.2) with
        | none => (Except.error (PyError.keyError s1.rset), s1, ev)
        | some table =>
          match riskScan table (raw / cm.2) with
          | some risk => (Except.ok risk, s1, ev)
          | none => (Except.error (PyError.nameError "risk"), s1, ev)

/-- The configuration fields of the driver (everything except the scratch
byte `buf`): ack, ack_thd, integration_time, rset. -/
def config (s : VEML6070) : Bool × Nat × String × String :=
  (s.ack, s.ack_thd, s.integration_time, s.rset)

/-! Helper lemmas shared by the claim theorems. -/

/-- Characterisation of a successful `read`: when both dict lookups succeed,
it returns `lsbByte << 8 | msbByte` and issues exactly the wake write, the
sleep, the two data reads and the shutdown write, in that order. -/
theorem read_ok (s : VEML6070) (l m code mult : Nat) (base : ℚ)
    (hit : itLookup s.integration_time = some (code, mult))
    (hrs : refreshLookup s.rset = some base) :
    read s l m =
      (Except.ok (l <<< 8 ||| m), { s with buf := 0x03 },
       [Event.write VEML6070_ADDR_CMD
          [s.ack.toNat <<< 5 ||| s.ack_thd <<< 4 ||| code <<< 2 ||| 0x02],
        Event.sleep (base * (mult : ℚ)),
        Event.read VEML6070_ADDR_LOW 1, Event.read VEML6070_ADDR_HIGH 1,
        Event.write VEML6070_ADDR_CMD [0x03]]) := by
  simp [read, wake, get_refresh_time, shutdown, hit, hrs]

/-- `wake` leaves the configuration fields unchanged. -/
theorem wake_config (s : VEML6070) : config (wake s).2.1 = config s := by
  unfold wake
  cases h : itLookup s.integration_time <;> simp [config]

/-- `get_refresh_time` leaves the configuration fields unchanged. -/
theorem get_refresh_time_config (s : VEML6070) :
    config (get_refresh_time s).2.1 = config s := by
  unfold get_refresh_time
  cases h1 : refreshLookup s.rset <;>
    [skip; cases h2 : itLookup s.integration_time] <;> simp

/-- `shutdown` leaves the configuration fields unchanged. -/
theorem shutdown_config (s : VEML6070) : config (shutdown s).2.1 = config s := by
  simp [shutdown, config]

/-- `read` leaves the configuration fields unchanged. -/
theorem read_config (s : VEML6070) (l m : Nat) :
    config (read s l m).2.1 = config s := by
  unfold read
  rcases hw : wake s with ⟨r1, s1, ev1⟩
  have h1 : config s1 = config s := by
    have h := wake_config s; rwa [hw] at h
  rcases r1 with e | u
  · simpa using h1
  · rcases hg : get_refresh_time s1 with ⟨r2, s2, ev2⟩
    have h2 : config s2 = config s1 := by
      have h := get_refresh_time_config s1; rwa [hg] at h
    rcases r2 with e | t
    · simpa [hg] using h2.trans h1
    · rcases hs : shutdown s2 with ⟨b, s3, ev3⟩
      have h3 : config s3 = config s2 := by
        have h := shutdown_config s2; rwa [hs] at h
      simpa [hg, hs] using h3.trans (h2.trans h1)

/-- `uva_light_sensitivity` leaves the configuration fields unchanged. -/
theorem uva_light_sensitivity_config (s : VEML6070) (l m : Nat) :
    config (uva_light_sensitivity s l m).2.1 = config s := by
  unfold uva_light_sensitivity
  rcases hr : read s l m with ⟨r1, s1, ev⟩
  have h1 : config s1 = config s := by
    have h := read_config s l m; rwa [hr] at h
  rcases r1 with e | raw
  · simpa using h1
  · cases h2 : itLookup s1.integration_time with
    | none => simpa [h2] using h1
    | some cm =>
      by_cases hz : cm.2 = 0 <;> simp [h2, hz, h1]

/-- `uv_risk` leaves the configuration fields unchanged. -/
theorem uv_risk_config (s : VEML6070) (l m : Nat) :
    config (uv_risk s l m).2.1 = config s := by
  unfold uv_risk
  rcases hr : read s l m with ⟨r1, s1, ev⟩
  have h1 : config s1 = config s := by
    have h := read_config s l m; rwa [hr] at h
  rcases r1 with e | raw
  · simpa using h1
  · cases h2 : itLookup s1.integration_time with
    | none => simpa [h2] using h1
    | some cm =>
      by_cases hz : cm.2 = 0
      · simp [h2, hz, h1]
      · cases h3 : (VEML6070_RISK_LEVEL.find? (fun p => p.1 = s1.rset)).map (fun p => p.2) with
        | none => simp [h2, hz, h3, h1]
        | some table =>
          cases h4 : riskScan table (raw / cm.2) <;> simp [h2, hz, h3, h4, h1]

/-! Claim theorems. -/

/-- C1: the claim says `read` returns `(MSB << 8) | LSB` where MSB is the
byte from the data-MSB address and LSB the byte from the data-LSB address.
The source sets `read_buf = msb + lsb` and returns
`read_buf[1] << 8 | read_buf[0]`, which is `(LSB << 8) | MSB`: with the bus
delivering LSB byte 2 and MSB byte 1, `read` returns 513 = (2 << 8) | 1 and
not 258 = (1 << 8) | 2 as the claim requires. -/
theorem c1_read_swaps_bytes :
    (read (initDriver false).1 2 1).1 = Except.ok 513 ∧ (513 : Nat) ≠ 1 <<< 8 ||| 2 := by
  constructor
  · rfl
  · decide

/-- C2: the claim says `set_integration_time` with each recognized mode
returns True and writes the command byte.  In the source the line
`self.buf[0] = ack << 5 | ...` references the unbound name `ack` (the
attribute is `self.ack`), so every valid mode raises NameError after
`self.integration_time` has been updated and before any bus write: at mode
VEML6070_2_T from the freshly constructed state, the call yields the
NameError, the updated integration_time, and an empty bus trace. -/
theorem c2_set_integration_time_raises :
    set_integration_time (initDriver false).1 "VEML6070_2_T" =
      (Except.error (PyError.nameError "ack"),
       { ack := false, ack_thd := 0x00, integration_time := "VEML6070_2_T",
         rset := "RSET_270K", buf := 0x04 }, []) := by
  rfl

/-- C3: the claim gives ranges with inclusive tops Low [0,561), Moderate
[561,1121), High [1121,1495), VeryHigh [1495,2055), Extreme [2055,10000) and
says mode One, raw 2054 gives VeryHigh.  The source feeds `[lower, upper]`
pairs to Python `range(lower, upper)`, which excludes `upper`, so the bands
are [0,560), [561,1120), [1121,1494), [1495,2054), [2055,9999): raw 2054
(bus bytes 8, 6 under the C1 byte order) matches no band, `risk` is never
assigned, and the method raises NameError instead of returning VeryHigh.
The other examples of the claim do hold: raw 800 gives MODERATE, raw 2055
gives EXTREME, and mode Two with raw 2242 gives HIGH. -/
theorem c3_risk_table_gap_at_2054 :
    (uv_risk (initDriver false).1 8 6).1 = Except.error (PyError.nameError "risk") ∧
    (uv_risk (initDriver false).1 3 32).1 = Except.ok "MODERATE" ∧
    (uv_risk (initDriver false).1 8 7).1 = Except.ok "EXTREME" ∧
    (uv_risk { (initDriver false).1 with integration_time := "VEML6070_2_T" } 8 194).1
      = Except.ok "HIGH" := by
  exact ⟨rfl, rfl, rfl, rfl⟩

/-- C4: the claim says that when the adjusted value exceeds the top of the
Extreme band, `uv_risk` either returns Extreme as a saturating default or
fails with a distinct OutOfRange error.  The source does neither: the scan
loop finds no band, `risk` is never assigned, and `return risk` raises
NameError.  Witnessed at mode One with raw 10000 (bus bytes 39, 16 under
the C1 byte order; adjusted 10000 is at or above the Extreme top 9999). -/
theorem c4_risk_overflow_raises_name_error :
    (uv_risk (initDriver false).1 39 16).1 = Except.error (PyError.nameError "risk") := by
  rfl

/-- C5 counterexample: the claim says that with mode Half both `uv_risk` and
`uva_light_sensitivity` fail with the distinct integration-time error.  With
mode Half and raw 0, `uva_light_sensitivity` evaluates `0.05625 / 0` and
raises ZeroDivisionError, which is not the distinct ValueError that
`uv_risk`'s explicit guard raises. -/
theorem c5_half_sensitivity_zero_division :
    (uva_light_sensitivity
        { (initDriver false).1 with integration_time := "VEML6070_HALF_T" } 0 0).1
      = Except.error PyError.zeroDivisionError ∧
    PyError.zeroDivisionError ≠ PyError.valueError := by
  constructor
  · rfl
  · decide

/-- C5 (amended): with mode Half (multiplier 0), for every pair of delivered
bus bytes and either ack flag, `uv_risk` fails with the distinct guard
ValueError (the integration-time-unsupported error) while
`uva_light_sensitivity` fails with ZeroDivisionError from the unguarded
`0.05625 / 0`; neither produces a value. -/
theorem c5_half_mode_errors (a : Bool) (l m : Nat) :
    (uv_risk { (initDriver a).1 with integration_time := "VEML6070_HALF_T" } l m).1
      = Except.error PyError.valueError ∧
    (uva_light_sensitivity
        { (initDriver a).1 with integration_time := "VEML6070_HALF_T" } l m).1
      = Except.error PyError.zeroDivisionError := by
  have hit : itLookup "VEML6070_HALF_T" = some (0x00, 0) := rfl
  have hrs : refreshLookup "RSET_270K" = some (9/80) := rfl
  constructor
  · unfold uv_risk
    rw [read_ok _ l m 0x00 0 (9/80) hit hrs]
    simp [hit]
  · unfold uva_light_sensitivity
    rw [read_ok _ l m 0x00 0 (9/80) hit hrs]
    simp [hit]

/-- C6: the claim says construction first issues a read directed at the
alert-response address and then writes the initial command byte to the
command address.  The source instead issues
`i2c.writeto_mem(VEML6070_ADDR_LOW, VEML6070_ADDR_ARA, ara_buf)` — a write
transaction to the data-LSB device address with the alert-response address
as register offset — followed by the command write; so for each ack flag the
trace is exactly those two events, and the first transaction is not a read
at all. -/
theorem c6_init_first_transaction_is_a_write :
    (∀ a : Bool, (initDriver a).2 =
      [Event.writeMem VEML6070_ADDR_LOW VEML6070_ADDR_ARA [0x00],
       Event.write VEML6070_ADDR_CMD [a.toNat <<< 5 ||| 0x01 <<< 2]]) ∧
    (∀ a : Bool, ∀ ad n : Nat, (initDriver a).2.head? ≠ some (Event.read ad n)) := by
  constructor
  · intro a; cases a <;> rfl
  · intro a ad n; cases a <;> simp [initDriver]

/-- C7: for every input string that is not one of the four recognized
integration-time keys, `set_integration_time` returns False, issues no bus
write, and leaves the whole stored state (integration_time, ack, ack_thd,
rset, and even the scratch byte) unchanged. -/
theorem c7_unrecognized_mode_no_op (s : VEML6070) (it : String)
    (h : itLookup it = none) :
    set_integration_time s it = (Except.ok false, s, []) := by
  simp [set_integration_time, h]

/-- C7 witness: the unrecognized key VEML6070_8_T, applied to the freshly
constructed state. -/
theorem c7_unrecognized_mode_no_op_witness :
    itLookup "VEML6070_8_T" = none ∧
    set_integration_time (initDriver false).1 "VEML6070_8_T" =
      (Except.ok false, (initDriver false).1, []) :=
  ⟨by decide, c7_unrecognized_mode_no_op _ _ (by decide)⟩

/-- C8: for every state whose integration-time and rset keys resolve (as
every reachable state's do), `read` issues exactly one wake command write,
then the refresh-delay sleep, then one read from the data-LSB address, then
one read from the data-MSB address, then one shutdown command write — in
that order, with the sleep strictly between the wake write and the first
data read. -/
theorem c8_read_bus_trace (s : VEML6070) (l m code mult : Nat) (base : ℚ)
    (hit : itLookup s.integration_time = some (code, mult))
    (hrs : refreshLookup s.rset = some base) :
    (read s l m).2.2 =
      [Event.write VEML6070_ADDR_CMD
         [s.ack.toNat <<< 5 ||| s.ack_thd <<< 4 ||| code <<< 2 ||| 0x02],
       Event.sleep (base * (mult : ℚ)),
       Event.read VEML6070_ADDR_LOW 1, Event.read VEML6070_ADDR_HIGH 1,
       Event.write VEML6070_ADDR_CMD [0x03]] := by
  rw [read_ok s l m code mult base hit hrs]

/-- C8 witness: the freshly constructed state (mode One, rset 270K) with
both delivered bytes 0. -/
theorem c8_read_bus_trace_witness :
    itLookup ((initDriver false).1).integration_time = some (0x01, 1) ∧
    refreshLookup ((initDriver false).1).rset = some (9/80) ∧
    (read (initDriver false).1 0 0).2.2 =
      [Event.write VEML6070_ADDR_CMD
         [((initDriver false).1).ack.toNat <<< 5 |||
            ((initDriver false).1).ack_thd <<< 4 ||| 0x01 <<< 2 ||| 0x02],
       Event.sleep ((9/80 : ℚ) * ((1 : Nat) : ℚ)),
       Event.read VEML6070_ADDR_LOW 1, Event.read VEML6070_ADDR_HIGH 1,
       Event.write VEML6070_ADDR_CMD [0x03]] :=
  ⟨rfl, rfl, c8_read_bus_trace _ 0 0 0x01 1 (9/80) rfl rfl⟩

/-- C9: for every state whose integration-time key resolves, the command
byte `wake` writes equals
`(ack << 5) | (ack_thd << 4) | (integration_code << 2) | 0b10`, and the byte
`shutdown` writes is the fixed literal 0x03 for every state whatsoever. -/
theorem c9_command_bytes (s : VEML6070) (code mult : Nat)
    (hit : itLookup s.integration_time = some (code, mult)) :
    (wake s).2.2 =
      [Event.write VEML6070_ADDR_CMD
         [s.ack.toNat <<< 5 ||| s.ack_thd <<< 4 ||| code <<< 2 ||| 0b10]] ∧
    (shutdown s).2.2 = [Event.write VEML6070_ADDR_CMD [0x03]] := by
  constructor
  · simp [wake, hit]
  · rfl

/-- C9 witness: the state constructed with ack = true (mode One, code 1):
wake writes 0b100110 = 38 and shutdown writes 0x03. -/
theorem c9_command_bytes_witness :
    itLookup ((initDriver true).1).integration_time = some (0x01, 1) ∧
    (wake (initDriver true).1).2.2 =
      [Event.write VEML6070_ADDR_CMD
         [((initDriver true).1).ack.toNat <<< 5 |||
            ((initDriver true).1).ack_thd <<< 4 ||| 0x01 <<< 2 ||| 0b10]] ∧
    (shutdown (initDriver true).1).2.2 = [Event.write VEML6070_ADDR_CMD [0x03]] := by
  refine ⟨rfl, ?_⟩
  exact c9_command_bytes _ 0x01 1 rfl

/-- C10: for every state and every pair of delivered bus bytes, each of
`read`, `get_refresh_time`, `uva_light_sensitivity`, `uv_risk`, `wake` and
`shutdown` leaves the configuration fields (ack, ack_thd, integration_time,
rset) of the post-state equal to their values before the call; only
`set_integration_time` mutates them after construction. -/
theorem c10_config_frame (s : VEML6070) (l m : Nat) :
    config (read s l m).2.1 = config s ∧
    config (get_refresh_time s).2.1 = config s ∧
    config (uva_light_sensitivity s l m).2.1 = config s ∧
    config (uv_risk s l m).2.1 = config s ∧
    config (wake s).2.1 = config s ∧
    config (shutdown s).2.1 = config s :=
  ⟨read_config s l m, get_refresh_time_config s,
   uva_light_sensitivity_config s l m, uv_risk_config s l m,
   wake_config s, shutdown_config s⟩

end Veml6070
